import Mathlib

/-!
# Verification of the "Евроальянс" credit/leasing calculator core

Shallow embedding of `src/Credit.py` (classes `ClientData`, `Vehicle`,
`CalculationParameters`, `SmartCalculator`, `ScoringSystem`,
`ProductConfigurator`) over exact rationals `ℚ`.

Modelling conventions:
* Python `float` arithmetic is modelled by exact `ℚ` arithmetic; Python's
  `round(x, n)` is modelled by rounding to the nearest `10 ^ (-n)` (Python
  uses round-half-even on floats, which agrees except exactly at midpoints).
* A Python expression that raises (`ZeroDivisionError` on `x / 0.0`,
  `KeyError` on a missing dict key, `ValueError` from `int(...)`) is modelled
  by `Option`, with `none` standing for the raised exception escaping the
  function.
* Wall-clock values (`datetime.now()`) are not computable inputs: the
  schedule's `date` string and the `calculation_id` are omitted from the
  embedded result record, and the scoring engine takes `current_year` as an
  explicit argument (the code reads `datetime.now().year`).
* Python's regex `\s` and `str.split` boundaries are modelled over the
  character list of the string, with `\s` taken as the space character (the
  only whitespace these fields can carry here).
-/

namespace Credit

/-- Python float division `a / b`, which raises `ZeroDivisionError` when
`b = 0`; the raise is modelled as `none`. -/
def pydiv (a b : ℚ) : Option ℚ := if b = 0 then none else some (a / b)

/-- Python `round(x, 2)` (to the nearest hundredth). -/
def round2 (x : ℚ) : ℚ := (round (x * 100) : ℤ) / 100

/-- Python `round(x, 1)` (to the nearest tenth). -/
def round1 (x : ℚ) : ℚ := (round (x * 10) : ℤ) / 10

/-- Split a character list at every occurrence of the separator `c` (the
semantics of Python `str.split(c)` / of consuming one `\s` between regex
groups). -/
def splitOnChar (c : Char) : List Char → List (List Char)
  | [] => [[]]
  | x :: xs =>
    match splitOnChar c xs with
    | [] => [[]]
    | w :: ws => if x = c then [] :: w :: ws else (x :: w) :: ws

/-- `ClientData` dataclass: confidential client attributes. -/
structure ClientData where
  full_name : String
  birth_date : String
  passport_series : String
  passport_number : String
  phone : String
  email : String
  monthly_income : ℚ
  employment_type : String
  experience_months : Int
deriving DecidableEq

/-- Uppercase Cyrillic letter class `[А-ЯЁ]` of the full-name regex. -/
def isUpperCyr (c : Char) : Bool := ('А' ≤ c && c ≤ 'Я') || c == 'Ё'

/-- Lowercase Cyrillic letter class `[а-яё]` of the full-name regex. -/
def isLowerCyr (c : Char) : Bool := ('а' ≤ c && c ≤ 'я') || c == 'ё'

/-- One word of the pattern `[А-ЯЁ][а-яё]+`. -/
def isCyrWord (w : List Char) : Bool :=
  match w with
  | [] => false
  | c :: rest => isUpperCyr c && !rest.isEmpty && rest.all isLowerCyr

/-- The full-name regex `^[А-ЯЁ][а-яё]+\s[А-ЯЁ][а-яё]+\s[А-ЯЁ][а-яё]+$`. -/
def full_name_matches (s : String) : Bool :=
  match splitOnChar ' ' s.toList with
  | [a, b, c] => isCyrWord a && isCyrWord b && isCyrWord c
  | _ => false

/-- A string of exactly `n` decimal digits (`\d{n}`). -/
def digitString (s : String) (n : Nat) : Bool :=
  s.toList.length == n && s.toList.all Char.isDigit

/-- The passport regex `^\d{4}\s\d{6}$` applied to
`f"{passport_series} {passport_number}"`: since `\d` never matches the
separator, the match succeeds exactly when the series is 4 digits and the
number is 6 digits. -/
def passport_matches (series number : String) : Bool :=
  digitString series 4 && digitString number 6

/-- `ClientData.validate`. -/
def ClientData.validate (c : ClientData) : Bool × String :=
  if !full_name_matches c.full_name then
    (false, "ФИО должно быть в формате: Фамилия Имя Отчество")
  else if !passport_matches c.passport_series c.passport_number then
    (false, "Паспорт должен быть в формате: 1234 567890")
  else if c.monthly_income < 15000 then
    (false, "Доход должен быть не менее 15000 руб.")
  else
    (true, "Данные валидны")

/-- `Vehicle` dataclass. -/
structure Vehicle where
  brand : String
  model : String
  year : Int
  price : ℚ
  vin : String
  category : String
deriving DecidableEq

/-- `Vehicle.get_residual_value(months)`: residual value for leasing.
`months / 12` is Python true division, hence fractional. -/
def Vehicle.get_residual_value (v : Vehicle) (months : ℕ) : ℚ :=
  if v.category = "new" then
    let years : ℚ := (months : ℚ) / 12
    if years ≤ 1 then v.price * 0.80
    else v.price * (0.80 - (years - 1) * 0.10)
  else
    let years : ℚ := (months : ℚ) / 12
    v.price * (1 - years * 0.15)

/-- `CalculationParameters` dataclass (defaults as in the source). -/
structure CalculationParameters where
  financing_type : String
  amount : ℚ
  initial_payment : ℚ
  months : ℕ
  vehicle : Option Vehicle := none
  insurance_included : Bool := true
  life_insurance : Bool := false
deriving DecidableEq

/-- The `financed_amount` property. -/
def CalculationParameters.financed_amount (p : CalculationParameters) : ℚ :=
  p.amount - p.initial_payment

/-- One row of the amortization schedule (the per-month dict built by
`generate_schedule`; the wall-clock `date` field is omitted). -/
structure ScheduleEntry where
  month : ℕ
  payment : ℚ
  principal : ℚ
  interest : ℚ
  balance : ℚ
deriving DecidableEq

/-- The `conditions` dict assembled by `SmartCalculator.calculate`. -/
structure Conditions where
  base_rate : ℚ
  vehicle_type : String
  residual_value : Option ℚ
  insurance_included : Bool
  life_insurance : Bool
deriving DecidableEq

/-- `CalculationResult` dataclass (wall-clock `calculation_id` omitted). -/
structure CalculationResult where
  monthly_payment : ℚ
  total_payment : ℚ
  overpayment : ℚ
  effective_rate : ℚ
  schedule : List ScheduleEntry
  approval_status : String
  approval_probability : ℚ
  conditions : Conditions
deriving DecidableEq

/-- The `self.base_rates` nested dict of `SmartCalculator`; a missing key
(`KeyError`) is `none`. -/
def base_rates (financing_type vehicle_type : String) : Option ℚ :=
  if financing_type = "credit" then
    if vehicle_type = "new" then some 0.159
    else if vehicle_type = "used" then some 0.189
    else none
  else if financing_type = "leasing" then
    if vehicle_type = "new" then some 0.149
    else if vehicle_type = "used" then some 0.179
    else none
  else none

/-- `SmartCalculator.validate_parameters`. -/
def validate_parameters (p : CalculationParameters) : Bool × String :=
  if p.amount ≤ 0 then
    (false, "Сумма должна быть положительной")
  else if p.initial_payment < p.amount * 0.15 then
    (false, "Первоначальный взнос не менее 15%")
  else if p.months < 12 || p.months > 84 then
    (false, "Срок должен быть от 12 до 84 месяцев")
  else if !(p.financing_type = "credit" || p.financing_type = "leasing") then
    (false, "Тип финансирования должен быть 'credit' или 'leasing'")
  else
    (true, "Параметры валидны")

/-- `SmartCalculator.calculate_annuity_payment`: returns
`amount * (monthly_rate * (1+monthly_rate)^months) / ((1+monthly_rate)^months - 1)`;
when `months = 0` the denominator is `0` and Python raises
`ZeroDivisionError` (modelled `none`). -/
def calculate_annuity_payment (amount annual_rate : ℚ) (months : ℕ) : Option ℚ :=
  let monthly_rate := annual_rate / 12
  match pydiv (monthly_rate * (1 + monthly_rate) ^ months)
      ((1 + monthly_rate) ^ months - 1) with
  | none => none
  | some coefficient => some (amount * coefficient)

/-- `SmartCalculator.calculate_effective_rate`: raises (modelled `none`) when
`financed_amount = 0` or `months = 0`. -/
def calculate_effective_rate (p : CalculationParameters) (monthly_payment : ℚ) :
    Option ℚ :=
  let total_cost := monthly_payment * (p.months : ℚ)
  match pydiv total_cost p.financed_amount with
  | none => none
  | some q =>
    match pydiv 12 (p.months : ℚ) with
    | none => none
    | some t => some ((q - 1) * t * 100)

/-- The loop body of `generate_schedule`: for each remaining month,
`interest = balance * monthly_rate`, `principal = monthly_payment - interest`,
`balance -= principal`; the stored row rounds the displayed figures and clamps
the displayed balance at 0. The loop-carried `balance` stays unrounded. -/
def scheduleGo (monthly_payment monthly_rate : ℚ) :
    ℚ → ℕ → ℕ → List ScheduleEntry
  | _, _, 0 => []
  | balance, month, Nat.succ k =>
    let interest := balance * monthly_rate
    let principal := monthly_payment - interest
    let newBalance := balance - principal
    { month := month, payment := round2 monthly_payment,
      principal := round2 principal, interest := round2 interest,
      balance := max 0 (round2 newBalance) } ::
      scheduleGo monthly_payment monthly_rate newBalance (month + 1) k

/-- `SmartCalculator.generate_schedule`: months run `1 .. params.months`,
starting from `balance = params.financed_amount`. -/
def generate_schedule (p : CalculationParameters)
    (monthly_payment annual_rate : ℚ) : List ScheduleEntry :=
  scheduleGo monthly_payment (annual_rate / 12) p.financed_amount 1 p.months

/-- `params.vehicle.category if params.vehicle else 'used'`. -/
def vehicleType (p : CalculationParameters) : String :=
  match p.vehicle with
  | some v => v.category
  | none => "used"

/-- The base-rate lookup plus term adjustment performed at the start of
`SmartCalculator.calculate` (lines 187-195). -/
def adjusted_rate (p : CalculationParameters) : Option ℚ :=
  match base_rates p.financing_type (vehicleType p) with
  | none => none
  | some b =>
    some (if p.months > 60 then b + 0.02
          else if p.months < 24 then b - 0.01
          else b)

/-- The `residual_value` local of `SmartCalculator.calculate`: nonzero only
for leasing with a vehicle attached (lines 197-203). -/
def residual_value_of (p : CalculationParameters) : ℚ :=
  match p.vehicle with
  | some v => if p.financing_type = "leasing" then v.get_residual_value p.months else 0
  | none => 0

/-- The `financed_amount` local of `SmartCalculator.calculate`: the financed
base reduced by the residual value for leasing with a vehicle. -/
def amortized_base (p : CalculationParameters) : ℚ :=
  p.financed_amount - residual_value_of p

/-- `SmartCalculator.calculate`: the main calculation. `none` models an
exception escaping the method (`KeyError` on an unknown financing type or
vehicle category, `ZeroDivisionError` for a zero term or a zero financed
amount). -/
def calculate (p : CalculationParameters) : Option CalculationResult :=
  match adjusted_rate p with
  | none => none
  | some base_rate =>
    match calculate_annuity_payment (amortized_base p) base_rate p.months with
    | none => none
    | some monthly_payment0 =>
      let monthly_payment1 :=
        if p.insurance_included then monthly_payment0 + p.amount * 0.005 / 12
        else monthly_payment0
      let monthly_payment :=
        if p.life_insurance then monthly_payment1 + 500 else monthly_payment1
      let total_payment0 := monthly_payment * (p.months : ℚ)
      let total_payment :=
        if p.financing_type = "leasing" then total_payment0 + residual_value_of p
        else total_payment0
      let overpayment := total_payment - p.financed_amount
      match calculate_effective_rate p monthly_payment with
      | none => none
      | some effective_rate =>
        some { monthly_payment := round2 monthly_payment
               total_payment := round2 total_payment
               overpayment := round2 overpayment
               effective_rate := round2 effective_rate
               schedule := generate_schedule p monthly_payment base_rate
               approval_status := "pending"
               approval_probability := 0
               conditions :=
                 { base_rate := round1 (base_rate * 100)
                   vehicle_type := vehicleType p
                   residual_value :=
                     if residual_value_of p > 0 then some (round2 (residual_value_of p))
                     else none
                   insurance_included := p.insurance_included
                   life_insurance := p.life_insurance } }

/-- Decimal digits to a number (the core of Python `int(...)`). -/
def parseDigits : ℕ → List Char → Option ℕ
  | acc, [] => some acc
  | acc, c :: cs =>
    if c.isDigit then parseDigits (acc * 10 + (c.toNat - 48)) cs else none

/-- Python `int(s)` on a plain (optionally negated) digit string; `none`
models the `ValueError` on anything else. -/
def parseInt (l : List Char) : Option Int :=
  match l with
  | [] => none
  | '-' :: rest =>
    match rest with
    | [] => none
    | _ => (parseDigits 0 rest).map (fun n => -(n : Int))
  | _ => (parseDigits 0 l).map (fun n => (n : Int))

/-- `int(client.birth_date.split('.')[-1])`. -/
def parse_birth_year (s : String) : Option Int :=
  parseInt ((splitOnChar '.' s.toList).getLastD [])

/-- `ScoringSystem.assess_client` (rules inlined: `min_income_ratio = 0.4`,
`min_age = 21`, `max_age = 70`, `min_experience = 3`). `current_year` stands
for `datetime.now().year`. `none` models an exception escaping the method
(birth-year parse failure, a failing `calculate`, or division by a zero
income). -/
def assess_client (current_year : Int) (client : ClientData)
    (p : CalculationParameters) : Option (ℚ × String) :=
  match parse_birth_year client.birth_date with
  | none => none
  | some birth_year =>
    let age := current_year - birth_year
    let score1 : ℚ :=
      if age < 21 then 100 - 30
      else if age > 70 then 100 - 20
      else 100
    match calculate p with
    | none => none
    | some temp =>
      match pydiv temp.monthly_payment client.monthly_income with
      | none => none
      | some payment_to_income =>
        let score2 :=
          if payment_to_income > 0.4 then score1 - (payment_to_income - 0.4) * 100
          else score1
        let score3 := if client.experience_months < 3 then score2 - 15 else score2
        let score4 :=
          if client.employment_type = "self_employed" then score3 - 10
          else if client.employment_type = "business_owner" then score3 - 5
          else score3
        let score := max 0 (min 100 score4)
        let status :=
          if score ≥ 70 then "pre_approved"
          else if score ≥ 50 then "conditional_approval"
          else "rejected"
        some (score, status)

/-- A product dict of `ProductConfigurator`. The `type_` field models the
`'type'` dict key, absent (`none`) until `get_available_products` writes it. -/
structure ProductDef where
  id : String
  name : String
  min_amount : Option ℚ := none
  max_amount : Option ℚ := none
  min_months : ℕ := 0
  max_months : ℕ := 0
  min_initial : Option ℚ := none
  residual_percent : Option ℚ := none
  available_for : List String := []
  type_ : Option String := none
deriving DecidableEq

/-- The `self.products` dict of `ProductConfigurator`. -/
structure ProductCatalog where
  credit_products : List ProductDef := []
  leasing_products : List ProductDef := []
deriving DecidableEq

/-- `ProductConfigurator._is_product_available`: category must be allowed and
the vehicle price must lie in `[min_amount, max_amount]` (`.get` defaults:
`min_amount` 0, `max_amount` +inf, i.e. no upper check). The method also
computes `min_initial_amount = vehicle.price * product.get('min_initial', 0)`
but never uses it. -/
def is_product_available (product : ProductDef) (vehicle : Vehicle)
    (_client_data : ClientData) : Bool :=
  let overMax : Bool :=
    match product.max_amount with
    | some m => vehicle.price > m
    | none => false
  if !(product.available_for.contains vehicle.category) then false
  else if vehicle.price < product.min_amount.getD 0 then false
  else if overMax then false
  else true

/-- The loop of `get_available_products` over one product list: each available
product has its `'type'` key set to `t` (mutating the stored dict) and is
appended to the output. Returns (output slice, updated stored list). -/
def markAvailable (t : String) (vehicle : Vehicle) (client_data : ClientData) :
    List ProductDef → List ProductDef × List ProductDef
  | [] => ([], [])
  | product :: rest =>
    let r := markAvailable t vehicle client_data rest
    if is_product_available product vehicle client_data then
      let m := { product with type_ := some t }
      (m :: r.1, m :: r.2)
    else (r.1, product :: r.2)

/-- `ProductConfigurator.get_available_products`: credit products first, then
leasing products. Because the Python code mutates the product dicts in place,
the embedding returns both the output list and the updated catalog. -/
def get_available_products (cat : ProductCatalog) (vehicle : Vehicle)
    (client_data : ClientData) : List ProductDef × ProductCatalog :=
  let c := markAvailable "credit" vehicle client_data cat.credit_products
  let l := markAvailable "leasing" vehicle client_data cat.leasing_products
  (c.1 ++ l.1, { credit_products := c.2, leasing_products := l.2 })

/-- The default catalog built by `_load_products` when the configuration file
is absent. -/
def default_products : ProductCatalog :=
  { credit_products :=
      [ { id := "credit_std", name := "Стандартный кредит",
          min_amount := some 100000, max_amount := some 5000000,
          min_months := 12, max_months := 84, min_initial := some 0.15,
          available_for := ["new", "used"] },
        { id := "credit_premium", name := "Премиум кредит",
          min_amount := some 500000, max_amount := some 10000000,
          min_months := 12, max_months := 60, min_initial := some 0.20,
          available_for := ["new"] } ]
    leasing_products :=
      [ { id := "leasing_std", name := "Стандартный лизинг",
          min_amount := some 300000, max_amount := some 10000000,
          min_months := 12, max_months := 60, min_initial := some 0.10,
          residual_percent := some 0.20,
          available_for := ["new", "used"] } ] }

/-! ## Proof-side notions

`balanceAfter` reproduces the exact (unrounded) loop-carried balance of
`generate_schedule`; the `spec_*` definitions transcribe formulas from the
specification's own words, to be compared with the code. -/

/-- Exact loop-carried balance of the schedule loop after `k` periods:
`balance -= monthly_payment - balance * monthly_rate` each period. -/
def balanceAfter (monthly_payment monthly_rate b0 : ℚ) : ℕ → ℚ
  | 0 => b0
  | k + 1 =>
    balanceAfter monthly_payment monthly_rate b0 k * (1 + monthly_rate) -
      monthly_payment

/-- The annuity formula exactly as the specification writes it:
`P × [r(1+r)^n] / [(1+r)^n − 1]`. -/
def spec_annuity (P r : ℚ) (n : ℕ) : ℚ :=
  P * (r * (1 + r) ^ n) / ((1 + r) ^ n - 1)

/-- The rider additions of `calculate` applied to the base annuity payment
(lines 209-215 of the source). -/
def rider_add (p : CalculationParameters) (base : ℚ) : ℚ :=
  let m1 := if p.insurance_included then base + p.amount * 0.005 / 12 else base
  if p.life_insurance then m1 + 500 else m1

/-- The total-payment rule of `calculate` (lines 217-220): monthly payment
times term, plus the residual value once for leasing. -/
def total_with_residual (p : CalculationParameters) (monthly_payment : ℚ) : ℚ :=
  if p.financing_type = "leasing" then
    monthly_payment * (p.months : ℚ) + residual_value_of p
  else monthly_payment * (p.months : ℚ)

/-- The specification's base-rate table in annual percent, keyed by
(financingType, vehicleCategory): credit/new=15.9, credit/used=18.9,
leasing/new=14.9, leasing/used=17.9 (meaningful on those four keys only). -/
def spec_table_percent (ft vt : String) : ℚ :=
  if ft = "credit" then (if vt = "new" then 15.9 else 18.9)
  else (if vt = "new" then 14.9 else 17.9)

/-- The specification's term adjustment in percentage points:
+2 if term > 60, −1 if term < 24, otherwise 0. -/
def spec_term_adjust (n : ℕ) : ℚ :=
  if n > 60 then 2 else if n < 24 then -1 else 0

/-- The specification's product-filter predicate: vehicle category in the
product's eligible-category set, and vehicle price within
[min_amount, max_amount] (absent bounds defaulting to 0 / +inf). -/
def spec_eligible (product : ProductDef) (vehicle : Vehicle) : Bool :=
  product.available_for.contains vehicle.category &&
  (product.min_amount.getD 0 ≤ vehicle.price) &&
  (match product.max_amount with
   | some m => (vehicle.price ≤ m : Bool)
   | none => true)

/-- Erase the `'type'` key written by `get_available_products`. -/
def strip_type (product : ProductDef) : ProductDef := { product with type_ := none }

/-- Erase all `'type'` keys of a catalog. -/
def strip_types (cat : ProductCatalog) : ProductCatalog :=
  { credit_products := cat.credit_products.map strip_type
    leasing_products := cat.leasing_products.map strip_type }

/-! ### Concrete instances used by witnesses and counterexamples -/

/-- The specification's worked example: amount 1,000,000, initial payment
200,000, term 36 months, credit, no vehicle, no riders. -/
def pExample : CalculationParameters :=
  { financing_type := "credit", amount := 1000000, initial_payment := 200000,
    months := 36, vehicle := none, insurance_included := false,
    life_insurance := false }

/-- A valid rider-free credit parameter set with a 12-month term. -/
def pShort : CalculationParameters :=
  { financing_type := "credit", amount := 1000000, initial_payment := 200000,
    months := 12, vehicle := none, insurance_included := false,
    life_insurance := false }

/-- A valid credit parameter set with the (default) comprehensive-insurance
rider switched on. -/
def pInsured : CalculationParameters :=
  { financing_type := "credit", amount := 1000000, initial_payment := 200000,
    months := 12, vehicle := none, insurance_included := true,
    life_insurance := false }

/-- A parameter set that passes `validate_parameters` (initial payment equal
to the full amount is allowed) but whose financed amount is zero. -/
def pZeroFinanced : CalculationParameters :=
  { financing_type := "credit", amount := 1000000, initial_payment := 1000000,
    months := 12, vehicle := none, insurance_included := true,
    life_insurance := false }

/-- A parameter set with a zero term. -/
def pZeroTerm : CalculationParameters :=
  { financing_type := "credit", amount := 1000000, initial_payment := 200000,
    months := 0, vehicle := none, insurance_included := true,
    life_insurance := false }

/-- A well-formed client record. -/
def clientGood : ClientData :=
  { full_name := "Иванов Иван Иванович", birth_date := "01.01.1990",
    passport_series := "1234", passport_number := "567890",
    phone := "+70000000000", email := "ivanov@example.com",
    monthly_income := 50000, employment_type := "employed",
    experience_months := 24 }

/-- A used vehicle priced at 50,000. -/
def vUsed50k : Vehicle :=
  { brand := "Lada", model := "Granta", year := 2015, price := 50000,
    vin := "XTA00AB1CD2EF3456", category := "used" }

/-- A new vehicle priced at 2,000,000. -/
def vNew : Vehicle :=
  { brand := "Volkswagen", model := "Tiguan", year := 2024, price := 2000000,
    vin := "WVGZZZ5NZLW000001", category := "new" }

/-- A valid rider-free leasing parameter set with a vehicle attached: amount
2,000,000, initial payment 400,000 (20% ≥ 15%), 36 months. The residual value
at 36 months is 1,200,000, so the amortized base (400,000) differs from the
financed amount (1,600,000). -/
def pLeasing : CalculationParameters :=
  { financing_type := "leasing", amount := 2000000, initial_payment := 400000,
    months := 36, vehicle := some vNew, insurance_included := false,
    life_insurance := false }

theorem balanceAfter_shift (mp mr b : ℚ) (k : ℕ) :
    balanceAfter mp mr b (k + 1) = balanceAfter mp mr (b * (1 + mr) - mp) k := by
  induction k with
  | zero => simp [balanceAfter]
  | succ n ih =>
    rw [show n + 1 + 1 = (n + 1) + 1 from rfl, balanceAfter, ih, balanceAfter]

theorem scheduleGo_eq_map (mp mr : ℚ) (b : ℚ) (m k : ℕ) :
    scheduleGo mp mr b m k = (List.range k).map (fun i =>
      { month := m + i, payment := round2 mp,
        principal := round2 (mp - balanceAfter mp mr b i * mr),
        interest := round2 (balanceAfter mp mr b i * mr),
        balance := max 0 (round2 (balanceAfter mp mr b (i + 1))) }) := by
  induction k generalizing b m with
  | zero => simp [scheduleGo]
  | succ n ih =>
    rw [List.range_succ_eq_map, List.map_cons, List.map_map, scheduleGo]
    have hb : b - (mp - b * mr) = b * (1 + mr) - mp := by ring
    simp only [List.cons.injEq]
    refine ⟨?_, ?_⟩
    · simp [balanceAfter, hb]
    · rw [hb, ih]
      apply List.map_congr_left
      intro i _
      have h1 : balanceAfter mp mr b (i + 1) = balanceAfter mp mr (b * (1 + mr) - mp) i :=
        balanceAfter_shift mp mr b i
      have h2 : balanceAfter mp mr b (i + 1 + 1) =
          balanceAfter mp mr (b * (1 + mr) - mp) (i + 1) :=
        balanceAfter_shift mp mr b (i + 1)
      simp [Function.comp, h1, h2, Nat.add_assoc, Nat.add_comm 1 i]

theorem balanceAfter_closed (mp mr b : ℚ) (hmr : mr ≠ 0) (k : ℕ) :
    balanceAfter mp mr b k = b * (1 + mr) ^ k - mp * (((1 + mr) ^ k - 1) / mr) := by
  induction k with
  | zero => simp [balanceAfter]
  | succ n ih =>
    rw [balanceAfter, ih]
    field_simp
    ring

/-- The defining identity of the annuity payment: paying
`spec_annuity P mr n` every period drives the exact balance from `P` to
exactly `0` after `n` periods. -/
theorem balanceAfter_annuity_zero (P mr : ℚ) (n : ℕ) (hmr : mr ≠ 0)
    (hD : (1 + mr) ^ n - 1 ≠ 0) :
    balanceAfter (spec_annuity P mr n) mr P n = 0 := by
  rw [balanceAfter_closed _ _ _ hmr, spec_annuity]
  field_simp
  ring

theorem sum_exact_principals (mp mr b : ℚ) (k : ℕ) :
    ((List.range k).map (fun i => mp - balanceAfter mp mr b i * mr)).sum =
      b - balanceAfter mp mr b k := by
  induction k with
  | zero => simp [balanceAfter]
  | succ n ih =>
    rw [List.range_succ, List.map_append, List.sum_append, ih, balanceAfter]
    simp
    ring

theorem abs_round2_sub (x : ℚ) : |round2 x - x| ≤ 1 / 200 := by
  have h := abs_sub_round (x * 100)
  have hx : round2 x - x = -((x * 100 - (round (x * 100) : ℚ)) / 100) := by
    rw [round2]; ring
  rw [hx, abs_neg, abs_div]
  have h100 : |(100 : ℚ)| = 100 := by norm_num
  rw [h100]
  linarith

theorem sum_map_round2_close (l : List ℚ) :
    |(l.map round2).sum - l.sum| ≤ (l.length : ℚ) * (1 / 200) := by
  induction l with
  | nil => simp
  | cons x xs ih =>
    simp only [List.map_cons, List.sum_cons, List.length_cons]
    have h1 := abs_round2_sub x
    have key : round2 x + (xs.map round2).sum - (x + xs.sum) =
        (round2 x - x) + ((xs.map round2).sum - xs.sum) := by ring
    rw [key]
    calc |(round2 x - x) + ((xs.map round2).sum - xs.sum)| ≤
        |round2 x - x| + |(xs.map round2).sum - xs.sum| := abs_add _ _
      _ ≤ 1 / 200 + (xs.length : ℚ) * (1 / 200) := add_le_add h1 ih
      _ = ((xs.length : ℚ) + 1) * (1 / 200) := by ring
      _ = ((xs.length + 1 : ℕ) : ℚ) * (1 / 200) := by push_cast; ring

theorem adjusted_rate_pos (p : CalculationParameters) (r : ℚ)
    (hr : adjusted_rate p = some r) : 0 < r := by
  unfold adjusted_rate base_rates at hr
  split_ifs at hr <;> simp_all <;> linarith [hr]

theorem annuity_payment_eq (P r : ℚ) (n : ℕ) (hn : n ≠ 0) (hrpos : 0 < r) :
    calculate_annuity_payment P r n = some (spec_annuity P (r / 12) n) := by
  have hmr : (0 : ℚ) < r / 12 := by positivity
  have hpow : 1 < (1 + r / 12) ^ n := one_lt_pow₀ (by linarith) hn
  have hD : (1 + r / 12) ^ n - 1 ≠ 0 := by
    intro h0
    nlinarith
  simp only [calculate_annuity_payment, pydiv]
  rw [if_neg hD]
  simp [spec_annuity, mul_div_assoc]

theorem calculate_eq (p : CalculationParameters) (r : ℚ)
    (hr : adjusted_rate p = some r) (hn : p.months ≠ 0)
    (hfin : p.financed_amount ≠ 0) :
    calculate p = some
      { monthly_payment :=
          round2 (rider_add p (spec_annuity (amortized_base p) (r / 12) p.months))
        total_payment :=
          round2 (total_with_residual p
            (rider_add p (spec_annuity (amortized_base p) (r / 12) p.months)))
        overpayment :=
          round2 (total_with_residual p
            (rider_add p (spec_annuity (amortized_base p) (r / 12) p.months)) -
            p.financed_amount)
        effective_rate :=
          round2 ((rider_add p (spec_annuity (amortized_base p) (r / 12) p.months) *
            (p.months : ℚ) / p.financed_amount - 1) * (12 / (p.months : ℚ)) * 100)
        schedule :=
          generate_schedule p
            (rider_add p (spec_annuity (amortized_base p) (r / 12) p.months)) r
        approval_status := "pending"
        approval_probability := 0
        conditions :=
          { base_rate := round1 (r * 100)
            vehicle_type := vehicleType p
            residual_value :=
              if residual_value_of p > 0 then some (round2 (residual_value_of p))
              else none
            insurance_included := p.insurance_included
            life_insurance := p.life_insurance } } := by
  have hrpos := adjusted_rate_pos p r hr
  have hann := annuity_payment_eq (amortized_base p) r p.months hn hrpos
  have hcast : ((p.months : ℚ)) ≠ 0 := Nat.cast_ne_zero.mpr hn
  unfold calculate
  rw [hr]
  dsimp only
  rw [hann]
  dsimp only
  simp only [calculate_effective_rate, pydiv]
  rw [if_neg hfin, if_neg hcast]
  simp only [rider_add, total_with_residual]

/-- The rate actually selected by `calculate` agrees with the specification's
table-plus-adjustment description, for the four meaningful keys. -/
theorem adjusted_rate_spec (p : CalculationParameters)
    (h1 : p.financing_type = "credit" ∨ p.financing_type = "leasing")
    (h2 : vehicleType p = "new" ∨ vehicleType p = "used") :
    adjusted_rate p =
      some ((spec_table_percent p.financing_type (vehicleType p) +
        spec_term_adjust p.months) / 100) := by
  unfold adjusted_rate base_rates spec_table_percent spec_term_adjust
  rcases h1 with h | h <;> rcases h2 with h2 | h2 <;> rw [h, h2] <;>
    simp <;> split_ifs <;> norm_num

/-- Evaluation of the worked example: the embedded `calculate` yields a
monthly payment of exactly 29284.38 (the exact annuity value
29284.38402... rounded to 2 decimals). -/
theorem calculate_example_eval :
    (calculate pExample).map (fun res => res.monthly_payment) =
      some 29284.38 := by
  simp [pExample, calculate, adjusted_rate, base_rates, vehicleType,
    amortized_base, residual_value_of, calculate_annuity_payment, pydiv,
    calculate_effective_rate, CalculationParameters.financed_amount, round2,
    round_eq]
  norm_num

/-- `_is_product_available` agrees with the specification's filter predicate:
category eligibility plus the price window, nothing else. -/
theorem is_product_available_eq_spec (product : ProductDef) (v : Vehicle)
    (c : ClientData) :
    is_product_available product v c = spec_eligible product v := by
  by_cases h1 : product.available_for.contains v.category = true
  · by_cases h2 : v.price < product.min_amount.getD 0
    · simp [is_product_available, spec_eligible, h1, h2, not_le.mpr h2]
    · rcases hmax : product.max_amount with _ | m
      · simp [is_product_available, spec_eligible, h1, h2, hmax, not_lt.mp h2]
      · by_cases h3 : v.price > m
        · simp [is_product_available, spec_eligible, h1, h2, hmax, h3,
            not_le.mpr h3]
        · simp [is_product_available, spec_eligible, h1, h2, hmax, h3,
            not_lt.mp h2, not_lt.mp h3]
  · simp at h1
    simp [is_product_available, spec_eligible, h1]

theorem markAvailable_fst (t : String) (v : Vehicle) (c : ClientData)
    (l : List ProductDef) :
    (markAvailable t v c l).1 =
      (l.filter (fun pr => is_product_available pr v c)).map
        (fun pr => { pr with type_ := some t }) := by
  induction l with
  | nil => simp [markAvailable]
  | cons pr rest ih =>
    simp only [markAvailable, List.filter_cons]
    by_cases h : is_product_available pr v c = true <;> simp [h, ih]

theorem markAvailable_snd (t : String) (v : Vehicle) (c : ClientData)
    (l : List ProductDef) :
    (markAvailable t v c l).2 =
      l.map (fun pr =>
        if is_product_available pr v c then { pr with type_ := some t }
        else pr) := by
  induction l with
  | nil => simp [markAvailable]
  | cons pr rest ih =>
    simp only [markAvailable, List.map_cons]
    by_cases h : is_product_available pr v c = true <;> simp [h, ih]

/-- Re-running the marking loop over an already-marked list changes nothing:
availability does not read the `'type'` key, and overwriting it with the same
value is the identity. -/
theorem markAvailable_idem (t : String) (v : Vehicle) (c : ClientData)
    (l : List ProductDef) :
    markAvailable t v c (markAvailable t v c l).2 = markAvailable t v c l := by
  induction l with
  | nil => simp [markAvailable]
  | cons pr rest ih =>
    by_cases h : is_product_available pr v c = true
    · have h' : is_product_available { pr with type_ := some t } v c = true := h
      simp [markAvailable, h, h', ih]
    · simp [markAvailable, h, ih]

/-- The marking loop touches only the `'type'` key of the stored products. -/
theorem markAvailable_strip (t : String) (v : Vehicle) (c : ClientData)
    (l : List ProductDef) :
    (markAvailable t v c l).2.map strip_type = l.map strip_type := by
  induction l with
  | nil => simp [markAvailable]
  | cons pr rest ih =>
    by_cases h : is_product_available pr v c = true <;>
      simp [markAvailable, strip_type, h, ih]

/-! ## Claim theorems -/

/-- C4: for every parameter set with a valid financing type and vehicle
category, the annual rate used by `calculate` equals the fixed table value
keyed by (financingType, vehicleCategory) — in percent: credit/new 15.9,
credit/used 18.9, leasing/new 14.9, leasing/used 17.9 — plus 2 points if
term > 60, minus 1 point if term < 24, unchanged otherwise; and the vehicle
category defaults to "used" when no vehicle is attached. -/
theorem claim_C4 (p : CalculationParameters)
    (h1 : p.financing_type = "credit" ∨ p.financing_type = "leasing")
    (h2 : vehicleType p = "new" ∨ vehicleType p = "used") :
    adjusted_rate p =
      some ((spec_table_percent p.financing_type (vehicleType p) +
        spec_term_adjust p.months) / 100) ∧
    (p.vehicle = none → vehicleType p = "used") := by
  refine ⟨adjusted_rate_spec p h1 h2, fun hv => ?_⟩
  unfold vehicleType
  rw [hv]

/-- C4 witness: the worked example (credit, no vehicle, 36 months) takes the
credit/used table rate with no term adjustment. -/
theorem claim_C4_witness :
    adjusted_rate pExample =
      some ((spec_table_percent pExample.financing_type (vehicleType pExample) +
        spec_term_adjust pExample.months) / 100) :=
  (claim_C4 pExample (Or.inl rfl) (Or.inr rfl)).1

/-- C6: residual value is `price × 0.80` for a new vehicle within the first
year (fractional years = months/12), `price × (0.80 − (years−1) × 0.10)`
beyond it, and `price × (1 − years × 0.15)` for a used vehicle; in particular
a new vehicle keeps 80% of its price at 0 and 12 elapsed months and 70% at
24 months. -/
theorem claim_C6 (v : Vehicle) (m : ℕ) :
    (v.category = "new" →
      (((m : ℚ) / 12 ≤ 1 → v.get_residual_value m = v.price * 0.80) ∧
        (1 < (m : ℚ) / 12 →
          v.get_residual_value m = v.price * (0.80 - ((m : ℚ) / 12 - 1) * 0.10)))) ∧
    (v.category = "used" → v.get_residual_value m = v.price * (1 - (m : ℚ) / 12 * 0.15)) ∧
    (v.category = "new" →
      v.get_residual_value 0 = v.price * 0.80 ∧
      v.get_residual_value 12 = v.price * 0.80 ∧
      v.get_residual_value 24 = v.price * 0.70) := by
  refine ⟨fun hnew => ⟨fun hle => ?_, fun hgt => ?_⟩, fun hused => ?_,
    fun hnew => ⟨?_, ?_, ?_⟩⟩
  · simp [Vehicle.get_residual_value, hnew, hle]
  · simp [Vehicle.get_residual_value, hnew, not_le.mpr hgt]
  · have hne : v.category ≠ "new" := by rw [hused]; simp
    simp [Vehicle.get_residual_value, hne]
  · simp [Vehicle.get_residual_value, hnew]
  · simp [Vehicle.get_residual_value, hnew]
  · simp [Vehicle.get_residual_value, hnew]
    try norm_num
    try ring

/-- C6 witness: a concrete new vehicle at 0, 12 and 24 elapsed months. -/
theorem claim_C6_witness :
    vNew.get_residual_value 0 = vNew.price * 0.80 ∧
    vNew.get_residual_value 12 = vNew.price * 0.80 ∧
    vNew.get_residual_value 24 = vNew.price * 0.70 :=
  (claim_C6 vNew 24).2.2 rfl

/-- C7: `validate_parameters` succeeds exactly when amount > 0, initial
payment ≥ 15% of amount, term ∈ [12,84] and financing type ∈
{credit, leasing}; on any violation it returns `false` with a reason message
distinct from the success message (and never raises: it is a total
function). -/
theorem claim_C7 (p : CalculationParameters) :
    ((validate_parameters p).1 = true ↔
      (0 < p.amount ∧ p.amount * 0.15 ≤ p.initial_payment ∧ 12 ≤ p.months ∧
        p.months ≤ 84 ∧
        (p.financing_type = "credit" ∨ p.financing_type = "leasing"))) ∧
    ((validate_parameters p).1 = false →
      (validate_parameters p).2 ≠ "Параметры валидны") ∧
    ((validate_parameters p).1 = true →
      (validate_parameters p).2 = "Параметры валидны") := by
  refine ⟨?_, ?_, ?_⟩
  · unfold validate_parameters
    split_ifs with h1 h2 h3 h4
    · simp only [Bool.false_eq_true, false_iff]
      rintro ⟨ha, -, -, -, -⟩
      linarith
    · simp only [Bool.false_eq_true, false_iff]
      rintro ⟨-, hb, -, -, -⟩
      linarith
    · simp only [Bool.false_eq_true, false_iff]
      simp only [Bool.or_eq_true, decide_eq_true_eq] at h3
      rintro ⟨-, -, hc, hd, -⟩
      omega
    · simp only [Bool.false_eq_true, false_iff]
      simp only [Bool.not_eq_true', Bool.or_eq_false_iff, decide_eq_false_iff_not] at h4
      rintro ⟨-, -, -, -, he | he⟩ <;> simp_all
    · simp only [true_iff]
      simp only [Bool.or_eq_true, decide_eq_true_eq, not_or] at h3
      simp only [Bool.not_eq_true', Bool.or_eq_false_iff, decide_eq_false_iff_not] at h4
      push_neg at h4
      refine ⟨by linarith, by linarith, by omega, by omega, ?_⟩
      by_cases hc : p.financing_type = "credit"
      · exact Or.inl hc
      · exact Or.inr (by tauto)
  · unfold validate_parameters
    split_ifs <;> simp
  · unfold validate_parameters
    split_ifs <;> simp

/-- C7 witness: the worked example passes all four validation rules. -/
theorem claim_C7_witness :
    (validate_parameters pExample).1 = true :=
  (claim_C7 pExample).1.mpr
    (by refine ⟨by norm_num [pExample], by norm_num [pExample], by norm_num [pExample],
      by norm_num [pExample], Or.inl rfl⟩)

/-- C10: for every client whose full name and passport match the required
textual patterns, `validate` succeeds if and only if the monthly income is at
least 15000; every client with income strictly between 0 and 15000 (which
satisfies the income > 0 invariant) is rejected with the income reason. -/
theorem claim_C10 (c : ClientData)
    (h1 : full_name_matches c.full_name = true)
    (h2 : passport_matches c.passport_series c.passport_number = true) :
    ((c.validate).1 = true ↔ 15000 ≤ c.monthly_income) ∧
    (0 < c.monthly_income → c.monthly_income < 15000 →
      c.validate = (false, "Доход должен быть не менее 15000 руб.")) := by
  unfold ClientData.validate
  rw [h1, h2]
  simp only [Bool.not_true, Bool.false_eq_true, if_false]
  split_ifs with h
  · exact ⟨by simp [not_le.mpr h], fun _ _ => rfl⟩
  · exact ⟨by simp [not_lt.mp h], fun _ hlt => absurd hlt (not_lt.mpr (not_lt.mp h))⟩

/-- C2 (code bug): on a parameter set with a zero financed amount that
nevertheless passes `validate_parameters` (initial payment = amount is
allowed), `calculate` raises `ZeroDivisionError` (modelled `none`) instead of
returning an explicit failure value; a zero term likewise makes `calculate`
raise inside the annuity formula. -/
theorem claim_C2_theorem :
    validate_parameters pZeroFinanced = (true, "Параметры валидны") ∧
    calculate pZeroFinanced = none ∧
    calculate pZeroTerm = none := by
  refine ⟨?_, ?_, ?_⟩
  · simp [validate_parameters, pZeroFinanced]
    norm_num
  · simp [pZeroFinanced, calculate, adjusted_rate, base_rates, vehicleType,
      amortized_base, residual_value_of, calculate_annuity_payment, pydiv,
      calculate_effective_rate, CalculationParameters.financed_amount]
    norm_num
  · simp [pZeroTerm, calculate, adjusted_rate, base_rates, vehicleType,
      amortized_base, residual_value_of, calculate_annuity_payment, pydiv,
      calculate_effective_rate, CalculationParameters.financed_amount]

/-- C5 counterexample: on the specification's worked example (amount
1,000,000, initial payment 200,000, term 36, credit, no vehicle, no riders)
the code's monthly payment is 29284.38, not approximately 28,928.93 — the
difference exceeds 300. -/
theorem claim_C5_counterexample :
    (calculate pExample).map (fun res => res.monthly_payment) = some 29284.38 ∧
    |(29284.38 : ℚ) - 28928.93| > 300 := by
  refine ⟨calculate_example_eval, ?_⟩
  have h : (29284.38 : ℚ) - 28928.93 = 355.45 := by norm_num
  rw [h, abs_of_pos (by norm_num)]
  norm_num

/-- C5 (amended): for every parameter set with a valid financing type and
vehicle category, a nonzero term and a nonzero financed amount, the pre-rider
monthly payment equals `P × [r(1+r)^n] / [(1+r)^n − 1]` with `r` the adjusted
annual rate over 12 and `P` the financed amount reduced by the residual value
for leasing with a vehicle; the result's monthly payment is that value plus
riders (rounded), the total payment is the monthly payment times the term
with the residual value appended once for leasing, and the overpayment is
total minus financed amount; on the worked example the monthly payment is
29,284.38 (not the 28,928.93 the specification printed). -/
theorem claim_C5_amended (p : CalculationParameters)
    (h1 : p.financing_type = "credit" ∨ p.financing_type = "leasing")
    (h2 : vehicleType p = "new" ∨ vehicleType p = "used")
    (hn : p.months ≠ 0) (hfin : p.financed_amount ≠ 0) :
    ∃ r res, adjusted_rate p = some r ∧ calculate p = some res ∧
      calculate_annuity_payment (amortized_base p) r p.months =
        some (spec_annuity (amortized_base p) (r / 12) p.months) ∧
      amortized_base p = p.financed_amount - residual_value_of p ∧
      res.monthly_payment =
        round2 (rider_add p (spec_annuity (amortized_base p) (r / 12) p.months)) ∧
      res.total_payment =
        round2 (total_with_residual p
          (rider_add p (spec_annuity (amortized_base p) (r / 12) p.months))) ∧
      res.overpayment =
        round2 (total_with_residual p
          (rider_add p (spec_annuity (amortized_base p) (r / 12) p.months)) -
          p.financed_amount) ∧
      (calculate pExample).map (fun res2 => res2.monthly_payment) =
        some 29284.38 := by
  have hr := adjusted_rate_spec p h1 h2
  have hrpos := adjusted_rate_pos p _ hr
  have hcalc := calculate_eq p _ hr hn hfin
  exact ⟨_, _, hr, hcalc, annuity_payment_eq _ _ _ hn hrpos, rfl, rfl, rfl,
    rfl, calculate_example_eval⟩

/-- C5 witness: the amended claim instantiated at the worked example. -/
theorem claim_C5_witness :
    ∃ r res, adjusted_rate pExample = some r ∧ calculate pExample = some res ∧
      calculate_annuity_payment (amortized_base pExample) r pExample.months =
        some (spec_annuity (amortized_base pExample) (r / 12) pExample.months) ∧
      amortized_base pExample =
        pExample.financed_amount - residual_value_of pExample ∧
      res.monthly_payment =
        round2 (rider_add pExample
          (spec_annuity (amortized_base pExample) (r / 12) pExample.months)) ∧
      res.total_payment =
        round2 (total_with_residual pExample
          (rider_add pExample
            (spec_annuity (amortized_base pExample) (r / 12) pExample.months))) ∧
      res.overpayment =
        round2 (total_with_residual pExample
          (rider_add pExample
            (spec_annuity (amortized_base pExample) (r / 12) pExample.months)) -
          pExample.financed_amount) ∧
      (calculate pExample).map (fun res2 => res2.monthly_payment) =
        some 29284.38 :=
  claim_C5_amended pExample (Or.inl rfl) (Or.inr rfl) (by decide)
    (by norm_num [pExample, CalculationParameters.financed_amount])

/-- C1 (amended): for every valid rider-free parameter set whose amortized
base equals the financed amount — credit, or no vehicle attached, so that the
financed base is the amount actually amortized as the claim presumes — with
term in [12,84] and positive financed amount (the adjusted rate is then
automatically positive), the schedule rows follow exact amortization — each
period's principal is the annuity payment minus that period's interest, with
interest equal to the running exact balance times the monthly base rate — the
exact balance after the full term is 0 (hence the displayed final balance is
0), and the rounded principal components sum to the financed amount within
the rounding epsilon of half a cent per period. With insurance riders on, the
schedule is instead built from the rider-inflated payment (see the
counterexample), so the per-period identity with the base payment fails. -/
theorem claim_C1_amended (p : CalculationParameters)
    (h1 : p.financing_type = "credit" ∨ p.financing_type = "leasing")
    (h2 : vehicleType p = "new" ∨ vehicleType p = "used")
    (hins : p.insurance_included = false) (hlife : p.life_insurance = false)
    (hm1 : 12 ≤ p.months) (hm2 : p.months ≤ 84)
    (hfin : 0 < p.financed_amount)
    (hbase : amortized_base p = p.financed_amount) :
    ∃ r res mp, adjusted_rate p = some r ∧ calculate p = some res ∧
      mp = spec_annuity p.financed_amount (r / 12) p.months ∧
      res.schedule = (List.range p.months).map (fun i =>
        { month := 1 + i, payment := round2 mp,
          principal :=
            round2 (mp - balanceAfter mp (r / 12) p.financed_amount i * (r / 12)),
          interest :=
            round2 (balanceAfter mp (r / 12) p.financed_amount i * (r / 12)),
          balance :=
            max 0 (round2 (balanceAfter mp (r / 12) p.financed_amount (i + 1))) }) ∧
      balanceAfter mp (r / 12) p.financed_amount p.months = 0 ∧
      (res.schedule.getLast?).map (fun e => e.balance) = some 0 ∧
      |(res.schedule.map (fun e => e.principal)).sum - p.financed_amount| ≤
        (p.months : ℚ) * (1 / 200) := by
  have hr := adjusted_rate_spec p h1 h2
  set r := (spec_table_percent p.financing_type (vehicleType p) +
    spec_term_adjust p.months) / 100 with hrdef
  have hrpos := adjusted_rate_pos p r hr
  have hn : p.months ≠ 0 := by omega
  have hfin' : p.financed_amount ≠ 0 := ne_of_gt hfin
  have hcalc := calculate_eq p r hr hn hfin'
  rw [hbase] at hcalc
  have hmp : rider_add p (spec_annuity p.financed_amount (r / 12) p.months) =
      spec_annuity p.financed_amount (r / 12) p.months := by
    simp [rider_add, hins, hlife]
  rw [hmp] at hcalc
  have hmr : (0 : ℚ) < r / 12 := by positivity
  have hpow : 1 < (1 + r / 12) ^ p.months := one_lt_pow₀ (by linarith) hn
  have hD : (1 + r / 12) ^ p.months - 1 ≠ 0 := by
    intro h0
    nlinarith
  have hzero : balanceAfter (spec_annuity p.financed_amount (r / 12) p.months)
      (r / 12) p.financed_amount p.months = 0 :=
    balanceAfter_annuity_zero p.financed_amount (r / 12) p.months
      (ne_of_gt hmr) hD
  refine ⟨r, _, spec_annuity p.financed_amount (r / 12) p.months, hr, hcalc,
    rfl, ?_, hzero, ?_, ?_⟩
  · show generate_schedule p (spec_annuity p.financed_amount (r / 12) p.months) r = _
    unfold generate_schedule
    exact scheduleGo_eq_map _ _ _ 1 p.months
  · show (generate_schedule p (spec_annuity p.financed_amount (r / 12) p.months)
        r).getLast?.map (fun e => e.balance) = some 0
    unfold generate_schedule
    rw [scheduleGo_eq_map]
    obtain ⟨k, hk⟩ : ∃ k, p.months = k + 1 := ⟨p.months - 1, by omega⟩
    rw [hk, List.range_succ, List.map_append]
    simp only [List.map_cons, List.map_nil]
    rw [List.getLast?_concat]
    rw [hk] at hzero
    rw [hzero]
    simp
    norm_num [round2]
  · show |((generate_schedule p (spec_annuity p.financed_amount (r / 12)
        p.months) r).map (fun e => e.principal)).sum - p.financed_amount| ≤
      (p.months : ℚ) * (1 / 200)
    unfold generate_schedule
    rw [scheduleGo_eq_map]
    have hexact : ((List.range p.months).map
        (fun i => spec_annuity p.financed_amount (r / 12) p.months -
          balanceAfter (spec_annuity p.financed_amount (r / 12) p.months)
            (r / 12) p.financed_amount i * (r / 12))).sum = p.financed_amount := by
      rw [sum_exact_principals, hzero]
      ring
    have hclose := sum_map_round2_close ((List.range p.months).map
      (fun i => spec_annuity p.financed_amount (r / 12) p.months -
        balanceAfter (spec_annuity p.financed_amount (r / 12) p.months)
          (r / 12) p.financed_amount i * (r / 12)))
    rw [hexact] at hclose
    simp only [List.length_map, List.length_range] at hclose
    have hlist : ((List.range p.months).map (fun i =>
        ({ month := 1 + i,
           payment := round2 (spec_annuity p.financed_amount (r / 12) p.months),
           principal := round2 (spec_annuity p.financed_amount (r / 12) p.months -
             balanceAfter (spec_annuity p.financed_amount (r / 12) p.months)
               (r / 12) p.financed_amount i * (r / 12)),
           interest := round2 (balanceAfter
             (spec_annuity p.financed_amount (r / 12) p.months) (r / 12)
               p.financed_amount i * (r / 12)),
           balance := max 0 (round2 (balanceAfter
             (spec_annuity p.financed_amount (r / 12) p.months) (r / 12)
               p.financed_amount (i + 1))) } : ScheduleEntry))).map
        (fun e => e.principal) =
        ((List.range p.months).map
          (fun i => spec_annuity p.financed_amount (r / 12) p.months -
            balanceAfter (spec_annuity p.financed_amount (r / 12) p.months)
              (r / 12) p.financed_amount i * (r / 12))).map round2 := by
      simp only [List.map_map]
      rfl
    rw [hlist]
    exact hclose

/-- C1 witness: the amended claim instantiated at a valid rider-free
12-month credit parameter set. -/
theorem claim_C1_witness :
    ∃ r res mp, adjusted_rate pShort = some r ∧ calculate pShort = some res ∧
      mp = spec_annuity pShort.financed_amount (r / 12) pShort.months ∧
      res.schedule = (List.range pShort.months).map (fun i =>
        { month := 1 + i, payment := round2 mp,
          principal := round2 (mp -
            balanceAfter mp (r / 12) pShort.financed_amount i * (r / 12)),
          interest :=
            round2 (balanceAfter mp (r / 12) pShort.financed_amount i * (r / 12)),
          balance := max 0
            (round2 (balanceAfter mp (r / 12) pShort.financed_amount (i + 1))) }) ∧
      balanceAfter mp (r / 12) pShort.financed_amount pShort.months = 0 ∧
      (res.schedule.getLast?).map (fun e => e.balance) = some 0 ∧
      |(res.schedule.map (fun e => e.principal)).sum - pShort.financed_amount| ≤
        (pShort.months : ℚ) * (1 / 200) :=
  claim_C1_amended pShort (Or.inl rfl) (Or.inr rfl) rfl rfl (by decide)
    (by decide) (by norm_num [pShort, CalculationParameters.financed_amount])
    (by simp [amortized_base, residual_value_of, pShort])

/-- C1 counterexample: the original claim fails on two disjoint regions of
valid parameter sets. (a) With the default comprehensive-insurance rider on,
the first schedule row's principal is NOT the base annuity payment minus the
period's interest — the schedule is built from the rider-inflated payment
(the two differ by the monthly insurance charge of about 416.67). (b) On a
valid rider-free leasing parameter set with a vehicle attached,
`generate_schedule` starts from the full financed amount while the payment is
sized for the residual-reduced base, so the displayed final balance is about
1,871,179.90, not 0. -/
theorem claim_C1_counterexample :
    (((calculate pInsured).bind (fun res => res.schedule.head?)).map
        (fun e => e.principal) ≠
      (calculate_annuity_payment pInsured.financed_amount 0.179
          pInsured.months).map
        (fun bp => round2 (bp - pInsured.financed_amount * (0.179 / 12)))) ∧
    (validate_parameters pLeasing).1 = true ∧
    ((calculate pLeasing).bind (fun res => res.schedule.getLast?)).map
        (fun e => e.balance) ≠ some 0 := by
  refine ⟨?_, ?_, ?_⟩
  · have hr : adjusted_rate pInsured = some 0.179 := by
      simp [adjusted_rate, base_rates, vehicleType, pInsured]
      norm_num
    have hfin : pInsured.financed_amount ≠ 0 := by
      norm_num [pInsured, CalculationParameters.financed_amount]
    have hcalc := calculate_eq pInsured 0.179 hr (by decide) hfin
    rw [hcalc]
    rw [annuity_payment_eq _ _ _ (by decide) (by norm_num)]
    have hbase : amortized_base pInsured = pInsured.financed_amount := by
      simp [amortized_base, residual_value_of, pInsured]
    rw [hbase]
    simp only [Option.some_bind]
    show ((generate_schedule pInsured _ _).head?.map _) ≠ _
    unfold generate_schedule
    rw [scheduleGo_eq_map, List.head?_map]
    rw [show (List.range pInsured.months).head? = some 0 from by decide]
    simp only [Option.map_some, balanceAfter]
    simp [pInsured, CalculationParameters.financed_amount, rider_add,
      spec_annuity, round2, round_eq]
    norm_num [balanceAfter]
  · simp [validate_parameters, pLeasing]
    norm_num
  · have hr : adjusted_rate pLeasing = some 0.149 := by
      simp [adjusted_rate, base_rates, vehicleType, pLeasing, vNew]
    have hfin : pLeasing.financed_amount ≠ 0 := by
      norm_num [pLeasing, CalculationParameters.financed_amount]
    have hcalc := calculate_eq pLeasing 0.149 hr (by decide) hfin
    rw [hcalc]
    simp only [Option.some_bind]
    show ((generate_schedule pLeasing _ _).getLast?.map _) ≠ _
    unfold generate_schedule
    rw [scheduleGo_eq_map]
    rw [show pLeasing.months = 35 + 1 from rfl]
    rw [List.range_succ, List.map_append]
    simp only [List.map_cons, List.map_nil]
    rw [List.getLast?_concat]
    dsimp only [Option.map]
    rw [balanceAfter_closed _ _ _ (by norm_num : ((0.149 : ℚ) / 12) ≠ 0)]
    have key : ∀ y : ℚ, 0 < y → some (max 0 y) ≠ some 0 := by
      intro y hy h
      simp only [Option.some.injEq] at h
      rw [max_eq_right hy.le] at h
      exact absurd h (ne_of_gt hy)
    apply key
    have hbase : amortized_base pLeasing = 400000 := by
      simp [amortized_base, residual_value_of, pLeasing, vNew,
        Vehicle.get_residual_value, CalculationParameters.financed_amount]
      norm_num
    rw [hbase]
    simp [rider_add, pLeasing, spec_annuity,
      CalculationParameters.financed_amount, round2, round_eq]
    norm_num

/-- C3: whenever the birth year parses, the payment recomputation succeeds and
the income is nonzero, `assess_client` returns the score obtained from 100 by
the independent deductions — 30 if age < 21, else 20 if age > 70; (ratio −
0.40) × 100 if the payment-to-income ratio exceeds 0.40; 15 if tenure < 3;
10 for self_employed; 5 for business_owner — clamped to [0,100] only at the
end, with status pre_approved iff score ≥ 70, conditional_approval iff
50 ≤ score < 70, and rejected otherwise. -/
theorem claim_C3 (current_year : Int) (client : ClientData)
    (p : CalculationParameters) (birth_year : Int) (res : CalculationResult)
    (hparse : parse_birth_year client.birth_date = some birth_year)
    (hcalc : calculate p = some res)
    (hincome : client.monthly_income ≠ 0) :
    ∃ score status, assess_client current_year client p = some (score, status) ∧
      score = max 0 (min 100 (100 -
        (if current_year - birth_year < 21 then (30 : ℚ)
         else if current_year - birth_year > 70 then 20 else 0) -
        (if res.monthly_payment / client.monthly_income > 0.4 then
          (res.monthly_payment / client.monthly_income - 0.4) * 100 else 0) -
        (if client.experience_months < 3 then (15 : ℚ) else 0) -
        (if client.employment_type = "self_employed" then (10 : ℚ)
         else if client.employment_type = "business_owner" then 5 else 0))) ∧
      status = (if score ≥ 70 then "pre_approved"
                else if score ≥ 50 then "conditional_approval"
                else "rejected") := by
  unfold assess_client
  rw [hparse]
  dsimp only
  rw [hcalc]
  dsimp only
  rw [show pydiv res.monthly_payment client.monthly_income =
      some (res.monthly_payment / client.monthly_income) from by
    simp [pydiv, hincome]]
  dsimp only
  refine ⟨_, _, rfl, ?_, rfl⟩
  split_ifs <;> (try rfl) <;> congr 1 <;> congr 1 <;> ring

/-- C3 witness: a concrete assessment succeeds and has the claimed shape. -/
theorem claim_C3_witness :
    ∃ score status,
      assess_client 2026 clientGood pShort = some (score, status) := by
  have hr : adjusted_rate pShort = some 0.179 := by
    simp [adjusted_rate, base_rates, vehicleType, pShort]
    norm_num
  have hcalc := calculate_eq pShort 0.179 hr (by decide)
    (by norm_num [pShort, CalculationParameters.financed_amount])
  obtain ⟨score, status, h1, -, -⟩ :=
    claim_C3 2026 clientGood pShort 1990 _ (by decide) hcalc
      (by norm_num [clientGood])
  exact ⟨score, status, h1⟩

/-- C8: a product appears in `get_available_products` exactly when the
vehicle's category is eligible and its price lies in [min_amount,
max_amount]; catalog order is preserved (credit tier first, then leasing,
each in catalog order) and every returned entry carries the financing type it
represents; the minimum-initial-payment ratio never affects membership; and
in the default catalog a used vehicle priced at 50,000 is excluded from the
premium credit product. -/
theorem claim_C8 (cat : ProductCatalog) (v : Vehicle) (c : ClientData)
    (pr : ProductDef) (q : Option ℚ) :
    (get_available_products cat v c).1 =
      (cat.credit_products.filter (fun x => spec_eligible x v)).map
        (fun x => { x with type_ := some "credit" }) ++
      (cat.leasing_products.filter (fun x => spec_eligible x v)).map
        (fun x => { x with type_ := some "leasing" }) ∧
    is_product_available { pr with min_initial := q } v c =
      is_product_available pr v c ∧
    (default_products.credit_products.filter
        (fun x => x.id == "credit_premium")).map
      (fun x => is_product_available x vUsed50k c) = [false] := by
  refine ⟨?_, rfl, ?_⟩
  · show (markAvailable "credit" v c cat.credit_products).1 ++
      (markAvailable "leasing" v c cat.leasing_products).1 = _
    rw [markAvailable_fst, markAvailable_fst]
    simp only [is_product_available_eq_spec]
  · simp [default_products, is_product_available, vUsed50k]

/-- C9 counterexample: calling `get_available_products` on the default catalog
with a matching vehicle mutates the stored catalog (the matching products'
`'type'` key is written in place), so the configurator state is NOT left
unchanged. -/
theorem claim_C9_counterexample :
    (get_available_products default_products vNew clientGood).2 ≠
      default_products := by
  simp [get_available_products, markAvailable, is_product_available,
    default_products, vNew]
  norm_num
  intro h
  exact absurd h (by simp)

/-- C9 (amended): `get_available_products` is deterministic — repeating the
call on the (mutated) stored catalog returns the same output and leaves the
catalog at a fixed point — and the mutation touches only the `'type'` key of
the matching stored products, every other field of every stored product being
unchanged; but the stored catalog itself is modified (see the
counterexample), so the call is not pure. -/
theorem claim_C9_amended (cat : ProductCatalog) (v : Vehicle) (c : ClientData) :
    (get_available_products (get_available_products cat v c).2 v c).1 =
      (get_available_products cat v c).1 ∧
    (get_available_products (get_available_products cat v c).2 v c).2 =
      (get_available_products cat v c).2 ∧
    strip_types (get_available_products cat v c).2 = strip_types cat := by
  unfold get_available_products strip_types
  refine ⟨?_, ?_, ?_⟩
  · rw [markAvailable_idem, markAvailable_idem]
  · rw [markAvailable_idem, markAvailable_idem]
  · rw [markAvailable_strip, markAvailable_strip]

/-- C10 witness: a concrete well-formed client with income 50000 validates
successfully. -/
theorem claim_C10_witness :
    (clientGood.validate).1 = true :=
  (claim_C10 clientGood (by decide) (by decide)).1.mpr (by norm_num [clientGood])

end Credit
